import Mathlib

/-!
Shallow embedding of the wagering core of `src/server.js` (an Express app,
single JS file).  Monetary amounts are JavaScript numbers; every operation
the core performs on them (comparison, addition, subtraction, multiplication
by the table constants 24, 10, 2 and 1.5) is exact on the values that occur,
so amounts are modelled as rationals (`ℚ`).  `Math.random()`-derived draws
are the sole source of nondeterminism; they are modelled as explicit
parameters (a `Rng` record of pre-drawn values), the seam the spec calls
RandomOutcomeProvider.  The in-memory `Map`s `users`, `bets`, `transactions`
are modelled as the per-user record plus lists of records in insertion
order (`Map.set` of a fresh id appends; `Array.from(map.values())` iterates
in insertion order).
-/

/-- The per-user mutable record created at registration
(`src/server.js` lines 86-98): balance and cumulative statistics.
Fields irrelevant to the ledger (name, email, password hash, createdAt)
are omitted; `id` is abstracted to a `Nat`. -/
structure User where
  id : Nat
  balance : ℚ
  totalBet : ℚ
  totalWon : ℚ
  totalBets : Nat
  isActive : Bool
  deriving DecidableEq, Repr

/-- The `gameData` object of a bet request.  JS property access on a
missing key yields `undefined`; a possibly-missing property is an
`Option`.  `selectedNumber` is used by the numbers game, `choice` by the
coin game. -/
structure GameData where
  selectedNumber : Option Int
  choice : Option String
  deriving DecidableEq, Repr

/-- Pre-drawn random values, one per `Math.random()` call site of the four
game functions: `Math.floor(Math.random()*25)` is a value in `Fin 25`,
each slots reel draw `Math.floor(Math.random()*symbols.length)` a value in
`Fin 7`, the wheel draw `Math.floor(Math.random()*prizes.length)` a value
in `Fin 8`, and `Math.random() < 0.5` a `Bool`. -/
structure Rng where
  numbersDraw : Fin 25
  slotsDraw1 : Fin 7
  slotsDraw2 : Fin 7
  slotsDraw3 : Fin 7
  wheelDraw : Fin 8
  coinDraw : Bool
  deriving DecidableEq, Repr

/-- The game-specific fields of the object each game function returns
(beyond `won` and `prize`). -/
inductive Outcome where
  | numbers (winningNumber : Int) (selectedNumber : Option Int)
  | slots (result1 result2 result3 : String)
  | wheel (multiplier : ℚ) (segment : Nat)
  | coin (result : String) (choice : Option String)
  deriving DecidableEq, Repr

/-- The object returned by each of the four game functions: `won`,
`prize`, plus the game-specific payload. -/
structure GameResult where
  won : Bool
  prize : ℚ
  outcome : Outcome
  deriving DecidableEq, Repr

/-- `processNumbersGame` (`src/server.js` lines 322-334): draw
`winningNumber = Math.floor(Math.random()*25) + 1`, win iff
`winningNumber === selectedNumber` (strict equality: `undefined` or an
out-of-range number simply compares unequal), prize `betAmount * 24`
when won, else 0. -/
def processNumbersGame (betAmount : ℚ) (gameData : GameData) (draw : Fin 25) : GameResult :=
  let selectedNumber := gameData.selectedNumber
  let winningNumber : Int := (draw.val : Int) + 1
  let won : Bool := decide (selectedNumber = some winningNumber)
  let prize : ℚ := if won then betAmount * 24 else 0
  { won := won, prize := prize, outcome := .numbers winningNumber selectedNumber }

/-- The slots symbol alphabet (`src/server.js` line 337). -/
def symbols : List String := ["🍒", "🍋", "🍊", "🍇", "💎", "⭐", "7️⃣"]

/-- `processSlotsGame` (`src/server.js` lines 336-350): three independent
uniform draws from the 7-symbol alphabet; win iff all three are equal;
prize `betAmount * 10` when won, else 0. -/
def processSlotsGame (betAmount : ℚ) (d1 d2 d3 : Fin 7) : GameResult :=
  let result1 := symbols.getD d1.val ""
  let result2 := symbols.getD d2.val ""
  let result3 := symbols.getD d3.val ""
  let won : Bool := decide (result1 = result2 ∧ result2 = result3)
  let prize : ℚ := if won then betAmount * 10 else 0
  { won := won, prize := prize, outcome := .slots result1 result2 result3 }

/-- The wheel's fixed 8-segment multiplier table (`src/server.js`
line 353): `[2, 0, 1.5, 0, 3, 0, 5, 0]`. -/
def wheelPrizes : List ℚ := [2, 0, 1.5, 0, 3, 0, 5, 0]

/-- `processWheelGame` (`src/server.js` lines 352-365): draw a segment
index uniformly from the 8-entry table, win iff the multiplier is
positive, prize `betAmount * multiplier` (which is 0 on a 0-multiplier
segment). -/
def processWheelGame (betAmount : ℚ) (draw : Fin 8) : GameResult :=
  let multiplier : ℚ := wheelPrizes.getD draw.val 0
  let won : Bool := decide (0 < multiplier)
  let prize : ℚ := betAmount * multiplier
  { won := won, prize := prize, outcome := .wheel multiplier draw.val }

/-- `processCoinGame` (`src/server.js` lines 367-379): flip
heads/tails with probability 1/2 each; win iff `choice === result`
(a missing choice compares unequal); prize `betAmount * 2` when won,
else 0. -/
def processCoinGame (betAmount : ℚ) (gameData : GameData) (flip : Bool) : GameResult :=
  let choice := gameData.choice
  let result := if flip then "heads" else "tails"
  let won : Bool := decide (choice = some result)
  let prize : ℚ := if won then betAmount * 2 else 0
  { won := won, prize := prize, outcome := .coin result choice }

/-- The `switch (game)` dispatch of the place-bet handler
(`src/server.js` lines 259-277): four recognized tags, anything else
falls to the `default:` branch, modelled as `none`. -/
def dispatchGame (game : String) (betAmount : ℚ) (gameData : GameData) (rng : Rng) :
    Option GameResult :=
  if game = "numbers" then some (processNumbersGame betAmount gameData rng.numbersDraw)
  else if game = "slots" then some (processSlotsGame betAmount rng.slotsDraw1 rng.slotsDraw2 rng.slotsDraw3)
  else if game = "wheel" then some (processWheelGame betAmount rng.wheelDraw)
  else if game = "coin" then some (processCoinGame betAmount gameData rng.coinDraw)
  else none

/-- A record of the `bets` map (`src/server.js` lines 291-301). -/
structure BetRecord where
  id : Nat
  userId : Nat
  game : String
  betAmount : ℚ
  result : ℚ
  won : Bool
  gameData : GameData
  resultData : GameResult
  timestamp : Nat
  deriving DecidableEq, Repr

/-- The typed rejections of the place-bet handler, one per distinct 400
response: stake under 100 ("Valor mínimo de aposta"), stake over balance
("Saldo insuficiente"), unrecognized game tag ("Jogo inválido"). -/
inductive BetError where
  | belowMinimum
  | insufficientBalance
  | invalidGame
  deriving DecidableEq, Repr

/-- The success payload of the place-bet handler
(`src/server.js` lines 304-311). -/
structure PlaceBetResponse where
  result : GameResult
  balance : ℚ
  totalBet : ℚ
  totalWon : ℚ
  totalBets : Nat
  deriving DecidableEq, Repr

/-- The place-bet handler (`src/server.js` lines 229-319), minus the
session lookup: validate `betAmount ≥ 100` and `betAmount ≤ balance`,
dispatch on the game tag, then debit the stake, bump `totalBet` and
`totalBets`, credit the prize when won, append the bet record, and
return the resolution with the updated stats.  Every failure path
`return`s before any mutation, so the pre-state is returned unchanged
there.  `betId` and `ts` stand for `generateId()` and `new Date()`. -/
def placeBet (user : User) (bets : List BetRecord) (betId ts : Nat)
    (game : String) (betAmount : ℚ) (gameData : GameData) (rng : Rng) :
    (User × List BetRecord) × Except BetError PlaceBetResponse :=
  if betAmount < 100 then ((user, bets), .error .belowMinimum)
  else if user.balance < betAmount then ((user, bets), .error .insufficientBalance)
  else
    match dispatchGame game betAmount gameData rng with
    | none => ((user, bets), .error .invalidGame)
    | some result =>
      let user1 : User := { user with
        balance := user.balance - betAmount,
        totalBet := user.totalBet + betAmount,
        totalBets := user.totalBets + 1 }
      let user2 : User := if result.won then
        { user1 with
          balance := user1.balance + result.prize,
          totalWon := user1.totalWon + result.prize }
        else user1
      let betRecord : BetRecord := {
        id := betId, userId := user.id, game := game, betAmount := betAmount,
        result := if result.won then result.prize else -betAmount,
        won := result.won, gameData := gameData, resultData := result, timestamp := ts }
      ((user2, bets ++ [betRecord]),
       .ok { result := result, balance := user2.balance, totalBet := user2.totalBet,
             totalWon := user2.totalWon, totalBets := user2.totalBets })

/-- A record of the `transactions` map (`src/server.js` lines 406-413
for deposits, 470-479 for withdrawals; deposits carry no destination
fields, modelled as `none`). -/
structure TransactionRecord where
  id : Nat
  userId : Nat
  kind : String
  amount : ℚ
  iban : Option String
  accountName : Option String
  status : String
  timestamp : Nat
  deriving DecidableEq, Repr

/-- The typed rejections of the deposit and withdraw handlers: amount
under 1000 ("Valor mínimo"), amount over balance ("Saldo insuficiente",
withdraw only), missing IBAN or holder name (withdraw only). -/
inductive TxError where
  | belowMinimum
  | insufficientBalance
  | missingDestination
  deriving DecidableEq, Repr

/-- JS truthiness of an optional string: `undefined` and `""` are falsy
(the withdraw handler tests `!iban || !accountName`). -/
def strTruthy : Option String → Bool
  | none => false
  | some s => decide (s ≠ "")

/-- The deposit handler (`src/server.js` lines 382-429), minus the
session lookup: reject amounts under 1000, otherwise credit the balance
and append a `"completed"` transaction record. -/
def deposit (user : User) (txs : List TransactionRecord) (txId ts : Nat) (amount : ℚ) :
    (User × List TransactionRecord) × Except TxError (ℚ × TransactionRecord) :=
  if amount < 1000 then ((user, txs), .error .belowMinimum)
  else
    let user' : User := { user with balance := user.balance + amount }
    let record : TransactionRecord := {
      id := txId, userId := user.id, kind := "deposit", amount := amount,
      iban := none, accountName := none, status := "completed", timestamp := ts }
    ((user', txs ++ [record]), .ok (user'.balance, record))

/-- The withdraw handler (`src/server.js` lines 432-495), minus the
session lookup: reject amounts under 1000, then amounts over the
balance, then a missing/empty IBAN or holder name; otherwise debit the
full amount immediately and append a `"pending"` transaction record.
The checks run in exactly the source's order.  Every failure path
`return`s before any mutation. -/
def withdraw (user : User) (txs : List TransactionRecord) (txId ts : Nat)
    (amount : ℚ) (iban accountName : Option String) :
    (User × List TransactionRecord) × Except TxError (ℚ × TransactionRecord) :=
  if amount < 1000 then ((user, txs), .error .belowMinimum)
  else if user.balance < amount then ((user, txs), .error .insufficientBalance)
  else if !strTruthy iban || !strTruthy accountName then
    ((user, txs), .error .missingDestination)
  else
    let user' : User := { user with balance := user.balance - amount }
    let record : TransactionRecord := {
      id := txId, userId := user.id, kind := "withdraw", amount := amount,
      iban := iban, accountName := accountName, status := "pending", timestamp := ts }
    ((user', txs ++ [record]), .ok (user'.balance, record))

/-- The bet-history handler (`src/server.js` lines 498-517): filter the
global bet log to the requesting user's records, sort by timestamp
descending (`(a, b) => b.timestamp - a.timestamp`), and keep the first
50. -/
def betHistory (bets : List BetRecord) (userId : Nat) : List BetRecord :=
  (((bets.filter (fun bet => bet.userId == userId)).mergeSort
      (fun a b => b.timestamp ≤ a.timestamp)).take 50)

/-- The transaction-history handler (`src/server.js` lines 520-538):
filter to the requesting user's records and sort by timestamp
descending, with no cap. -/
def transactionHistory (txs : List TransactionRecord) (userId : Nat) :
    List TransactionRecord :=
  (txs.filter (fun t => t.userId == userId)).mergeSort
    (fun a b => b.timestamp ≤ a.timestamp)

/-- One authenticated balance-affecting request against a fixed account:
a bet placement, a deposit, or a withdrawal, with the request payload
and (for bets) the random draws its resolution will consume. -/
inductive Request where
  | bet (game : String) (betAmount : ℚ) (gameData : GameData) (rng : Rng)
  | dep (amount : ℚ)
  | wd (amount : ℚ) (iban accountName : Option String)
  deriving DecidableEq, Repr

/-- The server state relevant to one account: the user record, the bet
log, the transaction log, and counters standing for `generateId()` /
`Date.now()`. -/
structure ServerState where
  user : User
  bets : List BetRecord
  txs : List TransactionRecord
  nextId : Nat
  now : Nat
  deriving DecidableEq, Repr

/-- Execution of one request as one atomic step.  Each of the three
handlers is a synchronous JS function with no `await` or callback
between its validation and its mutation, so under Node's single-threaded
event loop a whole handler runs as one indivisible step; concurrent
requests are executed as some interleaving of such steps, i.e. in some
serial order. -/
def step (st : ServerState) (rq : Request) : ServerState :=
  match rq with
  | .bet game betAmount gameData rng =>
    let r := placeBet st.user st.bets st.nextId st.now game betAmount gameData rng
    { st with user := r.1.1, bets := r.1.2, nextId := st.nextId + 1, now := st.now + 1 }
  | .dep amount =>
    let r := deposit st.user st.txs st.nextId st.now amount
    { st with user := r.1.1, txs := r.1.2, nextId := st.nextId + 1, now := st.now + 1 }
  | .wd amount iban accountName =>
    let r := withdraw st.user st.txs st.nextId st.now amount iban accountName
    { st with user := r.1.1, txs := r.1.2, nextId := st.nextId + 1, now := st.now + 1 }

/-- Execution of a serialization of requests, first to last. -/
def run (st : ServerState) (rqs : List Request) : ServerState :=
  rqs.foldl step st

/-- The balance delta a request is entitled to apply, computed from the
request and the balance it observes when its atomic step runs: 0 when
the request is rejected, `prize - stake` (or `-stake` on a loss) for an
accepted bet, `+amount` for an accepted deposit, `-amount` for an
accepted withdrawal. -/
def appliedDelta (st : ServerState) (rq : Request) : ℚ :=
  match rq with
  | .bet game betAmount gameData rng =>
    if betAmount < 100 then 0
    else if st.user.balance < betAmount then 0
    else match dispatchGame game betAmount gameData rng with
      | none => 0
      | some result => (if result.won then result.prize else 0) - betAmount
  | .dep amount => if amount < 1000 then 0 else amount
  | .wd amount iban accountName =>
    if amount < 1000 then 0
    else if st.user.balance < amount then 0
    else if !strTruthy iban || !strTruthy accountName then 0
    else -amount

/-- Sum of the deltas the requests of a serialization apply, each
computed against the state its step observes. -/
def sumDeltas : ServerState → List Request → ℚ
  | _, [] => 0
  | st, rq :: rest => appliedDelta st rq + sumDeltas (step st rq) rest

/-- A freshly registered user with the 100000 Kz welcome bonus
(`src/server.js` line 92). -/
def user0 : User :=
  { id := 1, balance := 100000, totalBet := 0, totalWon := 0, totalBets := 0, isActive := true }

/-- A user whose balance has dropped to 100 Kz. -/
def user100 : User :=
  { id := 2, balance := 100, totalBet := 0, totalWon := 0, totalBets := 0, isActive := true }

/-- An initial server state: one fresh account, empty logs. -/
def state0 : ServerState := { user := user0, bets := [], txs := [], nextId := 1, now := 1 }

/-- A fixed draw record: numbers draw 6 (winning number 7), wheel segment 1,
coin flip heads. -/
def rng0 : Rng :=
  { numbersDraw := ⟨6, by omega⟩, slotsDraw1 := ⟨0, by omega⟩, slotsDraw2 := ⟨1, by omega⟩,
    slotsDraw3 := ⟨2, by omega⟩, wheelDraw := ⟨1, by omega⟩, coinDraw := true }

/-- The same draws with the wheel landing on segment 2 (multiplier 1.5). -/
def rngWheel2 : Rng := { rng0 with wheelDraw := ⟨2, by omega⟩ }

/-- Game data selecting number 7 and heads. -/
def gameData7 : GameData := { selectedNumber := some 7, choice := some "heads" }

/-- Game data with the out-of-range selected number 30 and no coin choice. -/
def gameData30 : GameData := { selectedNumber := some 30, choice := none }

/-- A concrete bet record of user 1. -/
def recA : BetRecord :=
  { id := 10, userId := 1, game := "coin", betAmount := 100, result := 200, won := true,
    gameData := gameData7, resultData := processCoinGame 100 gameData7 true, timestamp := 5 }

/-- A concrete bet record of user 2. -/
def recB : BetRecord :=
  { id := 11, userId := 2, game := "coin", betAmount := 100, result := -100, won := false,
    gameData := gameData7, resultData := processCoinGame 100 gameData7 false, timestamp := 7 }

/-! ### Helper lemmas -/

theorem wheelPrizes_getD_nonneg (i : Nat) : 0 ≤ wheelPrizes.getD i 0 := by
  by_cases h : i < 8
  · interval_cases i <;> norm_num [wheelPrizes, List.getD]
  · rw [List.getD_eq_default _ _ (by simp [wheelPrizes]; omega)]

theorem processNumbersGame_prize_nonneg (amt : ℚ) (gd : GameData) (d : Fin 25)
    (ha : 0 ≤ amt) : 0 ≤ (processNumbersGame amt gd d).prize := by
  simp only [processNumbersGame]
  split_ifs
  · exact mul_nonneg ha (by norm_num)
  · exact le_refl 0

theorem processSlotsGame_prize_nonneg (amt : ℚ) (d1 d2 d3 : Fin 7)
    (ha : 0 ≤ amt) : 0 ≤ (processSlotsGame amt d1 d2 d3).prize := by
  simp only [processSlotsGame]
  split_ifs
  · exact mul_nonneg ha (by norm_num)
  · exact le_refl 0

theorem processWheelGame_prize_nonneg (amt : ℚ) (d : Fin 8)
    (ha : 0 ≤ amt) : 0 ≤ (processWheelGame amt d).prize := by
  simp only [processWheelGame]
  exact mul_nonneg ha (wheelPrizes_getD_nonneg d.val)

theorem processCoinGame_prize_nonneg (amt : ℚ) (gd : GameData) (flip : Bool)
    (ha : 0 ≤ amt) : 0 ≤ (processCoinGame amt gd flip).prize := by
  simp only [processCoinGame]
  split_ifs <;> first
    | exact mul_nonneg ha (by norm_num)
    | exact le_refl 0

theorem dispatch_prize_nonneg {g : String} {amt : ℚ} {gd : GameData} {rng : Rng}
    {res : GameResult} (hd : dispatchGame g amt gd rng = some res) (ha : 0 ≤ amt) :
    0 ≤ res.prize := by
  unfold dispatchGame at hd
  split_ifs at hd <;> cases hd
  · exact processNumbersGame_prize_nonneg _ _ _ ha
  · exact processSlotsGame_prize_nonneg _ _ _ _ ha
  · exact processWheelGame_prize_nonneg _ _ ha
  · exact processCoinGame_prize_nonneg _ _ _ ha

theorem step_balance_eq (st : ServerState) (rq : Request) :
    (step st rq).user.balance = st.user.balance + appliedDelta st rq := by
  cases rq with
  | bet g amt gd rng =>
    simp only [step, appliedDelta, placeBet]
    split_ifs with h1 h2
    · simp
    · simp
    · cases hd : dispatchGame g amt gd rng with
      | none => simp
      | some result =>
        cases hw : result.won <;> simp [hw] <;> ring
  | dep amount =>
    simp only [step, appliedDelta, deposit]
    split_ifs with h1
    · simp
    · simp
  | wd amount iban accountName =>
    simp only [step, appliedDelta, withdraw]
    split_ifs with h1 h2 h3
    · simp
    · simp
    · simp
    · simp; ring

theorem step_balance_nonneg (st : ServerState) (rq : Request)
    (h : 0 ≤ st.user.balance) : 0 ≤ (step st rq).user.balance := by
  cases rq with
  | bet g amt gd rng =>
    simp only [step, placeBet]
    split_ifs with h1 h2
    · exact h
    · exact h
    · push_neg at h1 h2
      cases hd : dispatchGame g amt gd rng with
      | none => exact h
      | some result =>
        have hp : 0 ≤ result.prize := dispatch_prize_nonneg hd (by linarith)
        cases hw : result.won <;> simp [hw] <;> linarith
  | dep amount =>
    simp only [step, deposit]
    split_ifs with h1
    · exact h
    · simp
      linarith
  | wd amount iban accountName =>
    simp only [step, withdraw]
    split_ifs with h1 h2 h3
    · exact h
    · exact h
    · exact h
    · push_neg at h2
      simp
      linarith

theorem run_balance_nonneg (st : ServerState) (rqs : List Request)
    (h : 0 ≤ st.user.balance) : 0 ≤ (run st rqs).user.balance := by
  induction rqs generalizing st with
  | nil => exact h
  | cons rq rest ih => exact ih (step st rq) (step_balance_nonneg st rq h)

/-! ### Claim theorems -/

/-- Claim C1: the balance is never negative after any sequence of core
operations: starting from a non-negative balance, every sequence of
bets, deposits and withdrawals preserves `0 ≤ balance`; moreover placeBet
rejects (returning a typed error with the state unchanged) every stake
greater than the current balance, and withdraw likewise rejects every
amount greater than the current balance. -/
theorem balance_never_negative :
    (∀ (st : ServerState) (rqs : List Request), 0 ≤ st.user.balance →
        0 ≤ (run st rqs).user.balance)
    ∧ (∀ (u : User) (bets : List BetRecord) (betId ts : Nat) (g : String)
        (amt : ℚ) (gd : GameData) (rng : Rng), u.balance < amt →
        ∃ e, placeBet u bets betId ts g amt gd rng = ((u, bets), .error e))
    ∧ (∀ (u : User) (txs : List TransactionRecord) (txId ts : Nat) (amt : ℚ)
        (iban accountName : Option String), u.balance < amt →
        ∃ e, withdraw u txs txId ts amt iban accountName = ((u, txs), .error e)) := by
  refine ⟨run_balance_nonneg, ?_, ?_⟩
  · intro u bets betId ts g amt gd rng h
    unfold placeBet
    split_ifs with h1
    · exact ⟨.belowMinimum, rfl⟩
    · exact ⟨.insufficientBalance, rfl⟩
  · intro u txs txId ts amt iban accountName h
    unfold withdraw
    split_ifs with h1
    · exact ⟨.belowMinimum, rfl⟩
    · exact ⟨.insufficientBalance, rfl⟩

/-- Witness for claim C1 at concrete inputs: a deposit followed by a bet
keeps the welcome-bonus balance non-negative, and a 200000 Kz bet or
withdrawal against the 100000 Kz balance is rejected with the state
unchanged. -/
theorem balance_never_negative_witness :
    (0 ≤ (run state0 [Request.dep 1000, Request.bet "numbers" 100 gameData7 rng0]).user.balance)
    ∧ (∃ e, placeBet user0 [] 1 1 "coin" 200000 gameData7 rng0 = ((user0, []), .error e))
    ∧ (∃ e, withdraw user0 [] 1 1 200000 (some "AO06005500001234567890123")
        (some "Maria dos Santos") = ((user0, []), .error e)) :=
  ⟨balance_never_negative.1 state0 _ (by norm_num [state0, user0]),
   balance_never_negative.2.1 user0 [] 1 1 "coin" 200000 gameData7 rng0 (by norm_num [user0]),
   balance_never_negative.2.2 user0 [] 1 1 200000 _ _ (by norm_num [user0])⟩

/-- Claim C2, counterexample: a numbers bet whose selectedNumber is 30
(outside [1,25]) is NOT rejected with an error: placeBet returns a success
payload, the resolver has run (its outcome is recorded, with winning number
7 from the forced draw), and the balance has changed from 100000 to 99900.
The place-bet handler performs no game-specific input validation before
dispatching to the resolver. -/
theorem numbers_out_of_range_not_rejected :
    (placeBet user0 [] 1 1 "numbers" 100 gameData30 rng0).2
      = .ok { result := { won := false, prize := 0, outcome := .numbers 7 (some 30) },
              balance := 99900, totalBet := 100, totalWon := 0, totalBets := 1 }
    ∧ (placeBet user0 [] 1 1 "numbers" 100 gameData30 rng0).1.1.balance = 99900 := by
  have h6 : ((rng0.numbersDraw.val : Nat) : Int) = 6 := by decide
  constructor
  · simp [placeBet, dispatchGame, processNumbersGame, user0, gameData30, h6]
    norm_num
  · simp [placeBet, dispatchGame, processNumbersGame, user0, gameData30, h6]
    norm_num

/-- Claim C2 as amended: placeBet performs no game-specific input
validation.  For game "numbers", a selectedNumber that is missing or
outside [1,25] is accepted whenever the stake passes the amount checks:
the resolver runs on the unvalidated input, the bet necessarily loses
(won = false, prize = 0, since the drawn winning number lies in [1,25]),
and the stake is debited.  For game "coin", a missing choice is likewise
accepted and the bet necessarily loses. -/
theorem game_input_not_validated :
    (∀ (u : User) (bets : List BetRecord) (betId ts : Nat) (amt : ℚ)
        (gd : GameData) (rng : Rng),
      100 ≤ amt → amt ≤ u.balance →
      (∀ k, gd.selectedNumber = some k → k < 1 ∨ 25 < k) →
      (placeBet u bets betId ts "numbers" amt gd rng).2
        = .ok { result := processNumbersGame amt gd rng.numbersDraw,
                balance := u.balance - amt, totalBet := u.totalBet + amt,
                totalWon := u.totalWon, totalBets := u.totalBets + 1 }
      ∧ (processNumbersGame amt gd rng.numbersDraw).won = false
      ∧ (processNumbersGame amt gd rng.numbersDraw).prize = 0)
    ∧ (∀ (u : User) (bets : List BetRecord) (betId ts : Nat) (amt : ℚ)
        (gd : GameData) (rng : Rng),
      100 ≤ amt → amt ≤ u.balance → gd.choice = none →
      (placeBet u bets betId ts "coin" amt gd rng).2
        = .ok { result := processCoinGame amt gd rng.coinDraw,
                balance := u.balance - amt, totalBet := u.totalBet + amt,
                totalWon := u.totalWon, totalBets := u.totalBets + 1 }
      ∧ (processCoinGame amt gd rng.coinDraw).won = false
      ∧ (processCoinGame amt gd rng.coinDraw).prize = 0) := by
  constructor
  · intro u bets betId ts amt gd rng h1 h2 hsel
    have hw : decide (gd.selectedNumber
        = some ((rng.numbersDraw.val : Int) + 1)) = false := by
      cases hgd : gd.selectedNumber with
      | none => simp
      | some k =>
        have hk := hsel k hgd
        have hlt := rng.numbersDraw.isLt
        simp only [decide_eq_false_iff_not, Option.some.injEq]
        omega
    have h1' : ¬ amt < 100 := not_lt.mpr h1
    have h2' : ¬ u.balance < amt := not_lt.mpr h2
    refine ⟨?_, ?_, ?_⟩
    · simp [placeBet, dispatchGame, processNumbersGame, hw, h1', h2']
    · simp [processNumbersGame, hw]
    · simp [processNumbersGame, hw]
  · intro u bets betId ts amt gd rng h1 h2 hch
    have hw : decide (gd.choice
        = some (if rng.coinDraw then "heads" else "tails")) = false := by
      simp [hch]
    have h1' : ¬ amt < 100 := not_lt.mpr h1
    have h2' : ¬ u.balance < amt := not_lt.mpr h2
    refine ⟨?_, ?_, ?_⟩
    · simp [placeBet, dispatchGame, processCoinGame, hw, h1', h2']
    · simp [processCoinGame, hw]
    · simp [processCoinGame, hw]

/-- Witness for claim C2 (amended) at concrete inputs: selectedNumber 30
and a missing coin choice are both accepted, lose, and debit the stake. -/
theorem game_input_not_validated_witness :
    ((placeBet user0 [] 1 1 "numbers" 100 gameData30 rng0).2
        = .ok { result := processNumbersGame 100 gameData30 rng0.numbersDraw,
                balance := user0.balance - 100, totalBet := user0.totalBet + 100,
                totalWon := user0.totalWon, totalBets := user0.totalBets + 1 }
      ∧ (processNumbersGame 100 gameData30 rng0.numbersDraw).won = false
      ∧ (processNumbersGame 100 gameData30 rng0.numbersDraw).prize = 0)
    ∧ ((placeBet user0 [] 1 1 "coin" 100 gameData30 rng0).2
        = .ok { result := processCoinGame 100 gameData30 rng0.coinDraw,
                balance := user0.balance - 100, totalBet := user0.totalBet + 100,
                totalWon := user0.totalWon, totalBets := user0.totalBets + 1 }
      ∧ (processCoinGame 100 gameData30 rng0.coinDraw).won = false
      ∧ (processCoinGame 100 gameData30 rng0.coinDraw).prize = 0) :=
  ⟨game_input_not_validated.1 user0 [] 1 1 100 gameData30 rng0 (by norm_num)
      (by norm_num [user0])
      (by intro k hk; simp [gameData30] at hk; omega),
   game_input_not_validated.2 user0 [] 1 1 100 gameData30 rng0 (by norm_num)
      (by norm_num [user0]) rfl⟩

/-- Claim C3: every failing placeBet returns a typed error and leaves the
account and the bet log exactly as they were: a stake under 100 fails with
belowMinimum, a stake over the balance with insufficientBalance, an
unrecognized game tag with invalidGame, and in general every error outcome
returns the pre-call user record (balance, totalBet, totalWon, totalBets)
and bet log unchanged — no partial debit, no bet record. -/
theorem placeBet_failure_state_unchanged
    (u : User) (bets : List BetRecord) (betId ts : Nat) (g : String) (amt : ℚ)
    (gd : GameData) (rng : Rng) :
    (amt < 100 →
      placeBet u bets betId ts g amt gd rng = ((u, bets), .error .belowMinimum))
    ∧ (¬ amt < 100 → u.balance < amt →
      placeBet u bets betId ts g amt gd rng = ((u, bets), .error .insufficientBalance))
    ∧ (¬ amt < 100 → ¬ u.balance < amt →
        g ≠ "numbers" → g ≠ "slots" → g ≠ "wheel" → g ≠ "coin" →
      placeBet u bets betId ts g amt gd rng = ((u, bets), .error .invalidGame))
    ∧ (∀ (p : User × List BetRecord) (e : BetError),
        placeBet u bets betId ts g amt gd rng = (p, .error e) → p = (u, bets)) := by
  refine ⟨?_, ?_, ?_, ?_⟩
  · intro h1
    simp only [placeBet, if_pos h1]
  · intro h1 h2
    simp only [placeBet, if_neg h1, if_pos h2]
  · intro h1 h2 hn hs hw hc
    have hd : dispatchGame g amt gd rng = none := by
      simp only [dispatchGame, if_neg hn, if_neg hs, if_neg hw, if_neg hc]
    simp only [placeBet, if_neg h1, if_neg h2, hd]
  · intro p e hpe
    simp only [placeBet] at hpe
    split_ifs at hpe with h1 h2
    · exact ((Prod.ext_iff.mp hpe).1).symm
    · exact ((Prod.ext_iff.mp hpe).1).symm
    · cases hd : dispatchGame g amt gd rng with
      | none =>
        rw [hd] at hpe
        exact ((Prod.ext_iff.mp hpe).1).symm
      | some result =>
        rw [hd] at hpe
        have h2' := (Prod.ext_iff.mp hpe).2
        simp at h2'

/-- Witness for claim C3 at concrete inputs: a 50 Kz stake, a 200000 Kz
stake and an unknown game "poker" are each rejected with the expected
typed error and the untouched initial state. -/
theorem placeBet_failure_state_unchanged_witness :
    placeBet user0 [] 1 1 "numbers" 50 gameData7 rng0 = ((user0, []), .error .belowMinimum)
    ∧ placeBet user0 [] 1 1 "numbers" 200000 gameData7 rng0
        = ((user0, []), .error .insufficientBalance)
    ∧ placeBet user0 [] 1 1 "poker" 100 gameData7 rng0 = ((user0, []), .error .invalidGame) :=
  ⟨(placeBet_failure_state_unchanged user0 [] 1 1 "numbers" 50 gameData7 rng0).1 (by norm_num),
   (placeBet_failure_state_unchanged user0 [] 1 1 "numbers" 200000 gameData7 rng0).2.1
     (by norm_num) (by norm_num [user0]),
   (placeBet_failure_state_unchanged user0 [] 1 1 "poker" 100 gameData7 rng0).2.2.1
     (by norm_num) (by norm_num [user0]) (by decide) (by decide) (by decide) (by decide)⟩

/-- Claim C4: the numbers game resolution: the winning number is the
uniform 0..24 draw shifted by one — hence always in [1,25], and every
value of [1,25] arises from some draw — the bet is won exactly when the
winning number equals the selected number, the prize is stake × 24 on a
win and 0 otherwise; with stake 100, selected number 7 and the winning
number forced to 7, the prize is 2400 and the bet is won. -/
theorem numbers_game_resolution :
    (∀ (amt : ℚ) (gd : GameData) (draw : Fin 25),
      (processNumbersGame amt gd draw).outcome
          = .numbers ((draw.val : Int) + 1) gd.selectedNumber
      ∧ 1 ≤ (draw.val : Int) + 1 ∧ (draw.val : Int) + 1 ≤ 25
      ∧ (processNumbersGame amt gd draw).won
          = decide (gd.selectedNumber = some ((draw.val : Int) + 1))
      ∧ (processNumbersGame amt gd draw).prize
          = if gd.selectedNumber = some ((draw.val : Int) + 1) then amt * 24 else 0)
    ∧ (∀ w : Int, 1 ≤ w → w ≤ 25 → ∃ draw : Fin 25, (draw.val : Int) + 1 = w)
    ∧ (processNumbersGame 100 gameData7 rng0.numbersDraw).prize = 2400
    ∧ (processNumbersGame 100 gameData7 rng0.numbersDraw).won = true := by
  refine ⟨?_, ?_, ?_, ?_⟩
  · intro amt gd draw
    have hlt := draw.isLt
    refine ⟨rfl, by omega, by omega, rfl, ?_⟩
    by_cases hP : gd.selectedNumber = some ((draw.val : Int) + 1) <;>
      simp [processNumbersGame, hP]
  · intro w h1 h2
    exact ⟨⟨(w - 1).toNat, by omega⟩, by simp; omega⟩
  · have h6 : ((rng0.numbersDraw.val : Nat) : Int) = 6 := by decide
    simp [processNumbersGame, gameData7, h6]
    norm_num
  · have h6 : ((rng0.numbersDraw.val : Nat) : Int) = 6 := by decide
    simp [processNumbersGame, gameData7, h6]

/-- Witness for claim C4 at a concrete input: the winning number 13 is
reachable from some draw. -/
theorem numbers_game_resolution_witness :
    ∃ draw : Fin 25, (draw.val : Int) + 1 = 13 :=
  numbers_game_resolution.2.1 13 (by norm_num) (by norm_num)

/-- Claim C5: the wheel game resolution: the fixed table is
[2, 0, 1.5, 0, 3, 0, 5, 0]; for every stake and drawn segment the
multiplier is the table entry at that segment, the bet is won exactly when
the multiplier is positive, and the prize is stake × multiplier; segment 6
with stake 500 gives prize 2500 and won = true, and any segment whose
multiplier is 0 gives won = false and prize = 0. -/
theorem wheel_game_resolution :
    wheelPrizes = [2, 0, 1.5, 0, 3, 0, 5, 0]
    ∧ (∀ (amt : ℚ) (draw : Fin 8),
        (processWheelGame amt draw).outcome
            = .wheel (wheelPrizes.getD draw.val 0) draw.val
        ∧ (processWheelGame amt draw).won = decide (0 < wheelPrizes.getD draw.val 0)
        ∧ (processWheelGame amt draw).prize = amt * wheelPrizes.getD draw.val 0)
    ∧ (processWheelGame 500 ⟨6, by omega⟩).prize = 2500
    ∧ (processWheelGame 500 ⟨6, by omega⟩).won = true
    ∧ (∀ (amt : ℚ) (draw : Fin 8), wheelPrizes.getD draw.val 0 = 0 →
        (processWheelGame amt draw).won = false
        ∧ (processWheelGame amt draw).prize = 0) := by
  refine ⟨rfl, fun amt draw => ⟨rfl, rfl, rfl⟩, ?_, ?_, ?_⟩
  · norm_num [processWheelGame, wheelPrizes, List.getD]
  · norm_num [processWheelGame, wheelPrizes, List.getD]
  · intro amt draw h
    constructor
    · simp only [processWheelGame]
      rw [h]
      simp
    · simp only [processWheelGame]
      rw [h]
      simp

/-- Witness for claim C5 at a concrete input: segment 1 has multiplier 0,
so the bet is lost with prize 0. -/
theorem wheel_game_resolution_witness :
    (processWheelGame 500 ⟨1, by omega⟩).won = false
    ∧ (processWheelGame 500 ⟨1, by omega⟩).prize = 0 :=
  wheel_game_resolution.2.2.2.2 500 ⟨1, by omega⟩ (by norm_num [wheelPrizes, List.getD])

/-- Claim C6, counterexample: a wheel bet of stake 101 landing on segment
2 (multiplier 1.5) credits the fractional prize 151.5 = 303/2, and running
that single bet from the integer balance 100000 stores the balance
100050.5 = 200101/2, whose denominator is 2 — not an integer number of
minor units.  Integrality of balances is not preserved. -/
theorem fractional_balance_counterexample :
    (processWheelGame 101 ⟨2, by omega⟩).prize = 303 / 2
    ∧ (run state0 [Request.bet "wheel" 101 ⟨none, none⟩ rngWheel2]).user.balance
        = 200101 / 2
    ∧ ((run state0 [Request.bet "wheel" 101 ⟨none, none⟩ rngWheel2]).user.balance).den = 2
    ∧ ((processWheelGame 101 ⟨2, by omega⟩).prize).den = 2 := by
  have h2 : rngWheel2.wheelDraw.val = 2 := by decide
  have hb : (run state0 [Request.bet "wheel" 101 ⟨none, none⟩ rngWheel2]).user.balance
      = 200101 / 2 := by
    simp [run, step, placeBet, dispatchGame, processWheelGame, h2, wheelPrizes,
      List.getD, state0, user0]
    norm_num
  have hp : (processWheelGame 101 (⟨2, by omega⟩ : Fin 8)).prize = 303 / 2 := by
    simp [processWheelGame, wheelPrizes, List.getD]
    norm_num
  refine ⟨hp, hb, ?_, ?_⟩
  · rw [hb]; norm_num
  · rw [hp]; norm_num

/-- Claim C6 as amended: starting from a non-negative balance, every
sequence of operations keeps the balance a non-negative rational, but the
balance need not remain an integer: the wheel game's 1.5 multiplier can
credit a prize with denominator 2, so fractional amounts can be stored. -/
theorem balance_nonneg_not_always_integral :
    (∀ (st : ServerState) (rqs : List Request), 0 ≤ st.user.balance →
        0 ≤ (run st rqs).user.balance)
    ∧ ((processWheelGame 101 ⟨2, by omega⟩).prize).den = 2 := by
  refine ⟨run_balance_nonneg, ?_⟩
  have hp : (processWheelGame 101 (⟨2, by omega⟩ : Fin 8)).prize = 303 / 2 := by
    simp [processWheelGame, wheelPrizes, List.getD]
    norm_num
  rw [hp]; norm_num

/-- Witness for claim C6 (amended) at a concrete input: a withdrawal from
the welcome-bonus balance keeps it non-negative. -/
theorem balance_nonneg_not_always_integral_witness :
    0 ≤ (run state0
      [Request.wd 1000 (some "AO06005500001234567890123") (some "Maria")]).user.balance :=
  balance_nonneg_not_always_integral.1 state0 _ (by norm_num [state0, user0])

/-- Claim C7, counterexample: a withdraw of 500 against a balance of 100
exceeds the balance but is rejected with the below-minimum error, not the
insufficient-balance one, because the 1000-minimum check runs first. -/
theorem withdraw_over_balance_can_reject_below_minimum :
    user100.balance < 500
    ∧ withdraw user100 [] 1 1 500 (some "AO06005500001234567890123") (some "Maria")
        = ((user100, []), .error .belowMinimum)
    ∧ TxError.belowMinimum ≠ TxError.insufficientBalance := by
  refine ⟨by norm_num [user100], ?_, by decide⟩
  unfold withdraw
  rw [if_pos (by norm_num)]

/-- Claim C7 as amended: every withdraw whose amount exceeds the current
balance is rejected with a typed error — insufficientBalance when the
amount is at least the 1000 minimum, belowMinimum when it is under it —
and in either case the balance (indeed the whole user record) is unchanged
and no transaction record is created. -/
theorem withdraw_over_balance_rejected
    (u : User) (txs : List TransactionRecord) (txId ts : Nat) (amt : ℚ)
    (iban accountName : Option String) (h : u.balance < amt) :
    (∃ e, withdraw u txs txId ts amt iban accountName = ((u, txs), .error e))
    ∧ (1000 ≤ amt →
        withdraw u txs txId ts amt iban accountName
          = ((u, txs), .error .insufficientBalance))
    ∧ (amt < 1000 →
        withdraw u txs txId ts amt iban accountName
          = ((u, txs), .error .belowMinimum)) := by
  refine ⟨?_, ?_, ?_⟩
  · unfold withdraw
    split_ifs with h1
    · exact ⟨.belowMinimum, rfl⟩
    · exact ⟨.insufficientBalance, rfl⟩
  · intro hge
    unfold withdraw
    rw [if_neg (by linarith), if_pos h]
  · intro hlt
    unfold withdraw
    rw [if_pos hlt]

/-- Witness for claim C7 (amended) at a concrete input: withdrawing 5000
from a balance of 100 is rejected with insufficientBalance and no state
change. -/
theorem withdraw_over_balance_rejected_witness :
    (∃ e, withdraw user100 [] 1 1 5000 (some "AO06005500001234567890123") (some "Maria")
        = ((user100, []), .error e))
    ∧ withdraw user100 [] 1 1 5000 (some "AO06005500001234567890123") (some "Maria")
        = ((user100, []), .error .insufficientBalance) :=
  ⟨(withdraw_over_balance_rejected user100 [] 1 1 5000 _ _ (by norm_num [user100])).1,
   (withdraw_over_balance_rejected user100 [] 1 1 5000 _ _ (by norm_num [user100])).2.1
     (by norm_num)⟩

/-- Claim C8: for every state of the bet log and every requesting account,
the bet history returns at most 50 records, every returned record belongs
to the requesting account, and the records are ordered by timestamp
descending. -/
theorem betHistory_bounded_isolated_sorted (bets : List BetRecord) (uid : Nat) :
    (betHistory bets uid).length ≤ 50
    ∧ (∀ r ∈ betHistory bets uid, r.userId = uid)
    ∧ (betHistory bets uid).Pairwise (fun a b => b.timestamp ≤ a.timestamp) := by
  refine ⟨List.length_take_le _ _, ?_, ?_⟩
  · intro r hr
    have h1 := List.take_subset 50 _ hr
    have h2 := List.mem_mergeSort.mp h1
    have h3 := List.mem_filter.mp h2
    simpa using h3.2
  · have hs := @List.sorted_mergeSort BetRecord
      (fun a b => decide (b.timestamp ≤ a.timestamp))
      (fun a b c hab hbc => by simp_all; omega)
      (fun a b => by simp [Nat.le_total])
      (bets.filter (fun bet => bet.userId == uid))
    have hp := List.Pairwise.sublist (List.take_sublist 50 _) hs
    exact hp.imp (fun h => by simpa using h)

/-- Witness for claim C8 at a concrete input: a log holding one record of
user 1 and one of user 2 yields, for user 1, a history of at most 50
records containing user 1's record. -/
theorem betHistory_bounded_isolated_sorted_witness :
    (betHistory [recA, recB] 1).length ≤ 50 ∧ recA.userId = 1 :=
  ⟨(betHistory_bounded_isolated_sorted [recA, recB] 1).1,
   (betHistory_bounded_isolated_sorted [recA, recB] 1).2.1 recA
     (by simp [betHistory, recA, recB])⟩

/-- Claim C9: per-account mutations are totally ordered.  Each handler is
a synchronous JS function with no suspension point between its
affordability check and its balance mutation, so under Node's
single-threaded event loop every request runs as one atomic step and a set
of concurrent requests against an account executes as some serialization
of such steps (the `run` of some request order).  For every serialization,
the final balance equals the initial balance plus the sum of the deltas
the requests apply, each delta computed from the consistent balance
snapshot its own step observes: no update is lost, and the check and the
debit take effect in the same atomic step. -/
theorem serialized_requests_no_lost_updates (st : ServerState) (rqs : List Request) :
    (run st rqs).user.balance = st.user.balance + sumDeltas st rqs := by
  induction rqs generalizing st with
  | nil => simp [run, sumDeltas]
  | cons rq rest ih =>
    have hr : run st (rq :: rest) = run (step st rq) rest := rfl
    rw [hr, ih (step st rq), step_balance_eq, sumDeltas]
    ring

/-- Claim C10: a withdraw that passes every check (amount at least 1000,
amount at most the balance, destination fields present) debits the full
amount from the balance immediately, while the transaction record it
appends and returns is created with status "pending": the debit is not
deferred to any later status transition. -/
theorem withdraw_debits_immediately_pending
    (u : User) (txs : List TransactionRecord) (txId ts : Nat) (amt : ℚ)
    (iban accountName : Option String)
    (h1 : 1000 ≤ amt) (h2 : amt ≤ u.balance)
    (h3 : strTruthy iban = true) (h4 : strTruthy accountName = true) :
    withdraw u txs txId ts amt iban accountName
      = (({ u with balance := u.balance - amt },
          txs ++ [{ id := txId, userId := u.id, kind := "withdraw", amount := amt,
                    iban := iban, accountName := accountName, status := "pending",
                    timestamp := ts }]),
         .ok (u.balance - amt,
              { id := txId, userId := u.id, kind := "withdraw", amount := amt,
                iban := iban, accountName := accountName, status := "pending",
                timestamp := ts })) := by
  unfold withdraw
  rw [if_neg (by linarith), if_neg (by linarith), if_neg (by simp [h3, h4])]

/-- Witness for claim C10 at a concrete input: withdrawing exactly 1000
from the welcome-bonus balance debits it immediately and appends a pending
record. -/
theorem withdraw_debits_immediately_pending_witness :
    withdraw user0 [] 1 1 1000 (some "AO06005500001234567890123") (some "Maria")
      = (({ user0 with balance := user0.balance - 1000 },
          [{ id := 1, userId := user0.id, kind := "withdraw", amount := 1000,
             iban := some "AO06005500001234567890123", accountName := some "Maria",
             status := "pending", timestamp := 1 }]),
         .ok (user0.balance - 1000,
              { id := 1, userId := user0.id, kind := "withdraw", amount := 1000,
                iban := some "AO06005500001234567890123", accountName := some "Maria",
                status := "pending", timestamp := 1 })) := by
  have h := withdraw_debits_immediately_pending user0 [] 1 1 1000
    (some "AO06005500001234567890123") (some "Maria")
    (by norm_num) (by norm_num [user0]) (by simp [strTruthy]) (by simp [strTruthy])
  simpa using h
